import Mathlib

set_option autoImplicit false

namespace Etsy

/-!
Shallow embedding of the Etsy business dashboard repository:
the PostgreSQL star-schema script, the axios HTTP interceptors, and the
pure helper functions of the React frontend (query-parameter sanitizing,
CSV export, margin arithmetic, and the product-catalog import modal).
-/

/-! ### JavaScript values

A small model of the JavaScript values the frontend helpers manipulate.
`looseEqNull` models the loose comparison `v == null`, which holds exactly
for `null` and `undefined`.
-/

inductive JsValue where
  | jsNull : JsValue
  | jsUndefined : JsValue
  | jsStr : String → JsValue
  | jsNum : Int → JsValue
  | jsBool : Bool → JsValue
  deriving DecidableEq, Repr

def JsValue.looseEqNull : JsValue → Bool
  | .jsNull => true
  | .jsUndefined => true
  | _ => false

/-- A JavaScript object, as an association list of own enumerable keys.
JavaScript objects never repeat a key, which theorems state as
`(p.map Prod.fst).Nodup`. -/
abbrev JsObj := List (String × JsValue)

/-- `o[k]`: property access, `undefined` when the key is absent. -/
def jsIndex (o : JsObj) (k : String) : JsValue :=
  match o.lookup k with
  | some v => v
  | none => JsValue.jsUndefined

/-! ### The query-parameter sanitizer `params`

From `src/frontend/src/api/report.js` (and the identical copies in
`src/unnamed/part_006` and `src/unnamed/part_007`):

  function params(p) \x7b
    const q = \x7b ...p \x7d;
    Object.keys(q).forEach((k) => (q[k] == null || q[k] === '') && delete q[k]);
    return q;
  \x7d
-/

/-- The deletion condition of `params`: `q[k] == null || q[k] === ''`. -/
def JsValue.isDroppable (v : JsValue) : Bool :=
  v.looseEqNull || v == JsValue.jsStr ""

/-- `delete q[k]` on the association-list model. -/
def deleteKey (o : JsObj) (k : String) : JsObj :=
  o.filter (fun kv => !(kv.1 == k))

/-- One iteration of the forEach body:
`(q[k] == null || q[k] === '') && delete q[k]`. -/
def dropStep (q : JsObj) (k : String) : JsObj :=
  if (jsIndex q k).isDroppable then deleteKey q k else q

/-- `params(p)`: copy `p` into `q` (the object spread), then delete from the
copy every key whose value is loosely null or the empty string. -/
def params (p : JsObj) : JsObj :=
  let q : JsObj := p
  (q.map Prod.fst).foldl dropStep q

/-- The call as the caller sees it: the returned object together with the
argument object after the call.  The source only ever mutates the spread
copy `q`, so the argument comes back untouched. -/
def paramsCall (p : JsObj) : JsObj × JsObj :=
  (params p, p)

/-! ### CSV export, from `src/frontend/src/pages/Report.jsx` -/

/-- `String(v)` on a defined JavaScript value. -/
def JsValue.jsToString : JsValue → String
  | .jsNull => "null"
  | .jsUndefined => "undefined"
  | .jsStr s => s
  | .jsNum n => toString n
  | .jsBool b => if b then "true" else "false"

/-- `const s = v != null ? String(v) : ''` in the row serializer of `toCSV`. -/
def cellString (v : JsValue) : String :=
  if v.looseEqNull then "" else v.jsToString

/-- `s.includes(c)` for a one-character needle: the string contains the
character. -/
def includesChar (s : String) (c : Char) : Bool :=
  s.data.contains c

/-- The regex replace of `toCSV`: every double quote becomes two. -/
def escapeQuotes (s : String) : String :=
  String.join (s.data.map (fun c => if c = '"' then "\"\"" else String.singleton c))

/-- The field quoting of `toCSV`:
`s.includes(',') || s.includes('"') ? ... : s`, where the quoted form wraps
`s` in double quotes after doubling every inner double quote. -/
def csvEscape (s : String) : String :=
  if includesChar s ',' || includesChar s '"' then
    "\"" ++ escapeQuotes s ++ "\""
  else s

/-- The `row` helper of `toCSV`: one CSV line for row `r` over columns `cols`. -/
def csvRow (cols : List String) (r : JsObj) : String :=
  String.intercalate "," (cols.map (fun c => csvEscape (cellString (jsIndex r c))))

/-- `toCSV(arr, columns)` from `Report.jsx`.  The first argument is `none`
when the caller passes a nullish `arr`; `columns` is `none` when omitted, in
which case the keys of the first row serve as columns. -/
def toCSV (arr : Option (List JsObj)) (columns : Option (List String)) : String :=
  match arr with
  | none => ""
  | some [] => ""
  | some (r0 :: rest) =>
    let cols := columns.getD (r0.map Prod.fst)
    String.intercalate "\r\n"
      (String.intercalate "," cols :: (r0 :: rest).map (csvRow cols))

/-! ### Margin arithmetic

From the Margin % column of the product list (`src/unnamed/part_003`) and
the totals row of `src/frontend/src/components/product_cost/ProductDetail.jsx`.
Numeric row values are modelled as rationals.
-/

/-- `record.sales > 0 ? (record.profit / record.sales) * 100 : 0`
(the Margin % cell renderer of the product list). -/
def marginCellValue (sales profit : Rat) : Rat :=
  if 0 < sales then profit / sales * 100 else 0

/-- The Margin % sort comparator of the product list: computes the two
margins with the same guarded expression and returns their difference. -/
def marginSorter (aSales aProfit bSales bProfit : Rat) : Rat :=
  (if 0 < aSales then aProfit / aSales * 100 else 0) -
  (if 0 < bSales then bProfit / bSales * 100 else 0)

/-- One variant row of the product detail table. -/
structure VariantRow where
  sales : Rat
  unit : Rat
  refund : Rat
  cogs : Rat
  etsy_fee : Rat
  profit : Rat
  deriving DecidableEq

/-- The accumulator of the `variants.reduce` call in `ProductDetail.jsx`. -/
structure Totals where
  sales : Rat
  unit : Rat
  refund : Rat
  cogs : Rat
  etsy_fee : Rat
  profit : Rat
  marginNumerator : Rat
  deriving DecidableEq

/-- The reducer body of the `variants.reduce` call. -/
def totalsStep (acc : Totals) (v : VariantRow) : Totals :=
  { sales := acc.sales + v.sales
    unit := acc.unit + v.unit
    refund := acc.refund + v.refund
    cogs := acc.cogs + v.cogs
    etsy_fee := acc.etsy_fee + v.etsy_fee
    profit := acc.profit + v.profit
    marginNumerator := acc.marginNumerator + (v.sales - v.refund - v.cogs - v.etsy_fee) }

/-- The initial accumulator of the reduce. -/
def totalsInit : Totals := ⟨0, 0, 0, 0, 0, 0, 0⟩

/-- `const totals = variants.reduce(..., \x7b sales: 0, ... \x7d)`. -/
def totals (variants : List VariantRow) : Totals :=
  variants.foldl totalsStep totalsInit

/-- `const totalMargin = totals.sales ? (totals.marginNumerator / totals.sales) * 100 : 0;`
JavaScript truthiness of a number is `≠ 0` here (the summed values are
numbers, never NaN, because every addend is coerced with `Number(x) || 0`). -/
def totalMargin (variants : List VariantRow) : Rat :=
  if (totals variants).sales ≠ 0 then
    (totals variants).marginNumerator / (totals variants).sales * 100
  else 0

/-! ### The axios response interceptor, from `src/frontend/src/lib/axios.js` -/

/-- `error.response`, when the request reached the server. -/
structure AxiosErrorResponse where
  status : Nat
  deriving DecidableEq

/-- The error object handed to the rejection handler of
`api.interceptors.response.use`. -/
structure AxiosError where
  response : Option AxiosErrorResponse
  deriving DecidableEq

/-- A successful HTTP response. -/
structure AxiosResponse where
  status : Nat
  data : String
  deriving DecidableEq

/-- The browser-visible side effects performed by the rejection handler. -/
structure InterceptorEffects where
  signedOut : Bool
  messageShown : Bool
  redirectTarget : Option String
  deriving DecidableEq

/-- No side effect performed. -/
def noEffects : InterceptorEffects :=
  { signedOut := false, messageShown := false, redirectTarget := none }

/-- The fulfilled handler `(response) => response`. -/
def onResponseFulfilled (r : AxiosResponse) : AxiosResponse := r

/-- The rejection handler: when `error.response?.status === 401` it shows a
message, signs out of Supabase and sets `window.location.href = '/login'`
(inside a `setTimeout`), and in every case returns `Promise.reject(error)`
with the original error. -/
def onResponseRejected (e : AxiosError) : InterceptorEffects × AxiosError :=
  if e.response.map AxiosErrorResponse.status = some 401 then
    ({ signedOut := true, messageShown := true, redirectTarget := some "/login" }, e)
  else
    (noEffects, e)

/-! ### The product-catalog import modal, from `src/unnamed/part_002` -/

/-- The six fields of the import form. -/
structure CatalogFormValues where
  product_line_id : String
  product_id : String
  variant_id : String
  product_line_name : String
  product_name : String
  variant_name : String
  deriving DecidableEq

/-- The form with every field cleared (`form.resetFields()`). -/
def emptyForm : CatalogFormValues := ⟨"", "", "", "", "", ""⟩

/-- The names of required fields left empty, per the `rules` declared on the
`Form.Item`s: `required: true` on `product_line_id`, `product_id` and
`variant_id` only. -/
def requiredFieldErrors (v : CatalogFormValues) : List String :=
  (if v.product_line_id = "" then ["product_line_id"] else []) ++
  (if v.product_id = "" then ["product_id"] else []) ++
  (if v.variant_id = "" then ["variant_id"] else [])

/-- Outcome of `form.validateFields()`: the values when every required field
is filled, otherwise a rejection carrying `errorFields`. -/
inductive ValidateOutcome where
  | ok (values : CatalogFormValues)
  | errorFields (fields : List String)
  deriving DecidableEq

/-- `form.validateFields()` under the declared rules. -/
def validateFields (v : CatalogFormValues) : ValidateOutcome :=
  if requiredFieldErrors v = [] then .ok v else .errorFields (requiredFieldErrors v)

/-- The component state the modal handler touches. -/
structure ModalState where
  importModalVisible : Bool
  importing : Bool
  formValues : CatalogFormValues
  deriving DecidableEq

/-- Result of one run of `handleImportRow`: whether
`importProductCatalogRow` was called, and the state afterwards. -/
structure ImportRowResult where
  apiCalled : Bool
  state : ModalState
  deriving DecidableEq

/-- `handleImportRow` from `src/unnamed/part_002`: validate the form; on a
validation rejection the catch block returns early (no API call), though the
`finally` block still runs `setImporting(false)`; on success the API is
called, and when it answers ok the modal closes and the form resets. -/
def handleImportRow (s : ModalState) (apiOk : Bool) : ImportRowResult :=
  match validateFields s.formValues with
  | .errorFields _ =>
    { apiCalled := false, state := { s with importing := false } }
  | .ok _ =>
    let s1 : ModalState := { s with importing := true }
    let s2 : ModalState :=
      if apiOk then { s1 with importModalVisible := false, formValues := emptyForm } else s1
    { apiCalled := true, state := { s2 with importing := false } }

/-! ### Pro-rata allocation by revenue share

The margin-breakdown endpoint (`/api/products/:id/margin_breakdown`, called
by `fetchMarginBreakdown` in `src/frontend/src/api/productCost.js` and
rendered by `ProductDetail.jsx`) is served by backend SQL that is not under
`src/`; only its caller and renderer are.  The allocation is therefore
modelled from the spec.
-/

/-- Modelled from the spec: the backend margin-breakdown query is missing
from `src/`.  The spec describes it as pro-rata refund/fee allocation by
revenue share, so an order with revenue `orderRevenue` out of a product
total `productRevenue` receives `total * (orderRevenue / productRevenue)`
of the product-level refund/fee total. -/
def allocatedShare (total productRevenue orderRevenue : Rat) : Rat :=
  total * (orderRevenue / productRevenue)

/-- Modelled from the spec: the `sales_percent` reported per order by the
margin breakdown is the order revenue as a percentage of the product
revenue. -/
def salesPercent (productRevenue orderRevenue : Rat) : Rat :=
  orderRevenue / productRevenue * 100

/-- Modelled from the spec: the per-order `sales_percent` column of the
margin breakdown, over a product whose orders have the given revenues. -/
def marginBreakdownPercents (orderRevenues : List Rat) : List Rat :=
  orderRevenues.map (fun r => salesPercent orderRevenues.sum r)

/-! ### The warehouse schema, from `src/unnamed/part_000`

Every `CREATE TABLE` of the star-schema script, transcribed column by
column: name, SQL type, and the declared constraints (NOT NULL, PRIMARY
KEY, UNIQUE, DEFAULT, REFERENCES, GENERATED ALWAYS AS).
-/

/-- SQL column types used by the script. -/
inductive SqlType where
  | integer
  | bigint
  | bigserial
  | text
  | boolean
  | date
  | timestamp
  | varchar (n : Nat)
  | decimal (p s : Nat)
  deriving DecidableEq, Repr

/-- DEFAULT clauses used by the script. -/
inductive SqlDefault where
  | dNone
  | dTrue
  | dFalse
  | dCurrentTimestamp
  | dStr (s : String)
  | dInt (n : Int)
  | dDec (lit : String)
  deriving DecidableEq, Repr

/-- One column declaration. -/
structure Column where
  name : String
  type : SqlType
  notNull : Bool := false
  primaryKey : Bool := false
  uniq : Bool := false
  default : SqlDefault := .dNone
  references : Option (String × String) := none
  generatedFrom : Option (List String) := none
  deriving DecidableEq, Repr

/-- Table-level constraints (the script only declares named UNIQUE ones). -/
inductive TableConstraint where
  | uniqueCols (name : String) (cols : List String)
  deriving DecidableEq, Repr

/-- One `CREATE TABLE` statement. -/
structure Table where
  name : String
  columns : List Column
  constraints : List TableConstraint := []
  deriving DecidableEq, Repr

/-- `dim_time` (lines 14 to 50 of the script). -/
def dim_time : Table :=
  { name := "dim_time"
    columns := [
      { name := "time_key", type := .integer, primaryKey := true },
      { name := "full_date", type := .date, notNull := true },
      { name := "year", type := .integer, notNull := true },
      { name := "quarter", type := .integer, notNull := true },
      { name := "month", type := .integer, notNull := true },
      { name := "week_of_year", type := .integer },
      { name := "day_of_month", type := .integer },
      { name := "day_of_week", type := .integer },
      { name := "day_of_year", type := .integer },
      { name := "month_name", type := .varchar 20, notNull := true },
      { name := "day_name", type := .varchar 20, notNull := true },
      { name := "quarter_name", type := .varchar 10, notNull := true },
      { name := "is_weekend", type := .boolean, notNull := true },
      { name := "is_holiday", type := .boolean, default := .dFalse },
      { name := "holiday_name", type := .varchar 100 },
      { name := "is_business_day", type := .boolean, default := .dTrue },
      { name := "etsy_season", type := .varchar 50 },
      { name := "is_peak_season", type := .boolean, default := .dFalse },
      { name := "selling_season", type := .varchar 50 },
      { name := "is_current_day", type := .boolean, default := .dFalse },
      { name := "is_current_week", type := .boolean, default := .dFalse },
      { name := "is_current_month", type := .boolean, default := .dFalse },
      { name := "is_current_quarter", type := .boolean, default := .dFalse },
      { name := "is_current_year", type := .boolean, default := .dFalse }] }

/-- `dim_product` (lines 54 to 110). -/
def dim_product : Table :=
  { name := "dim_product"
    columns := [
      { name := "product_key", type := .bigserial, primaryKey := true },
      { name := "listing_id", type := .bigint },
      { name := "title", type := .text },
      { name := "description", type := .text },
      { name := "price", type := .decimal 15 2 },
      { name := "currency_code", type := .varchar 3 },
      { name := "quantity", type := .integer },
      { name := "category", type := .text },
      { name := "subcategory", type := .text },
      { name := "product_type", type := .text },
      { name := "materials_list", type := .text },
      { name := "tags_list", type := .text },
      { name := "color", type := .text },
      { name := "material", type := .text },
      { name := "dimensions", type := .text },
      { name := "how_made", type := .text },
      { name := "variation_1_type", type := .text },
      { name := "variation_1_name", type := .text },
      { name := "variation_1_values", type := .text },
      { name := "variation_2_type", type := .text },
      { name := "variation_2_name", type := .text },
      { name := "variation_2_values", type := .text },
      { name := "image_urls", type := .text },
      { name := "primary_image_url", type := .text },
      { name := "sku_list", type := .text },
      { name := "story", type := .text },
      { name := "instructions", type := .text },
      { name := "how_use", type := .text },
      { name := "fit_for", type := .text },
      { name := "country_origin", type := .text },
      { name := "completeness_score", type := .decimal 3 2, default := .dDec "0.00" },
      { name := "effective_date", type := .timestamp, notNull := true, default := .dCurrentTimestamp },
      { name := "expiry_date", type := .timestamp, notNull := true, default := .dStr "9999-12-31 23:59:59" },
      { name := "is_current", type := .boolean, notNull := true, default := .dTrue },
      { name := "created_date", type := .timestamp, notNull := true, default := .dCurrentTimestamp },
      { name := "updated_date", type := .timestamp, notNull := true, default := .dCurrentTimestamp }] }

/-- `dim_customer` (lines 114 to 147). -/
def dim_customer : Table :=
  { name := "dim_customer"
    columns := [
      { name := "customer_key", type := .bigserial, primaryKey := true },
      { name := "buyer_user_name", type := .text, notNull := true },
      { name := "full_name", type := .text },
      { name := "first_name", type := .text },
      { name := "last_name", type := .text },
      { name := "country", type := .text },
      { name := "state", type := .text },
      { name := "city", type := .text },
      { name := "zipcode", type := .text },
      { name := "payment_method", type := .text },
      { name := "ship_date", type := .timestamp },
      { name := "street_1", type := .text },
      { name := "street_2", type := .text },
      { name := "ship_name", type := .text },
      { name := "effective_date", type := .timestamp, notNull := true, default := .dCurrentTimestamp },
      { name := "expiry_date", type := .timestamp, notNull := true, default := .dStr "9999-12-31 23:59:59" },
      { name := "is_current", type := .boolean, notNull := true, default := .dTrue },
      { name := "created_date", type := .timestamp, notNull := true, default := .dCurrentTimestamp },
      { name := "updated_date", type := .timestamp, notNull := true, default := .dCurrentTimestamp }] }

/-- `dim_order` (lines 151 to 199). -/
def dim_order : Table :=
  { name := "dim_order"
    columns := [
      { name := "order_key", type := .bigserial, primaryKey := true },
      { name := "order_id", type := .bigint, notNull := true, uniq := true },
      { name := "order_type", type := .text },
      { name := "payment_method", type := .text },
      { name := "payment_type", type := .text },
      { name := "number_of_items", type := .integer, default := .dInt 1 },
      { name := "order_value", type := .decimal 15 2 },
      { name := "discount_amount", type := .decimal 15 2 },
      { name := "shipping_discount", type := .decimal 15 2 },
      { name := "shipping", type := .decimal 15 2 },
      { name := "sales_tax", type := .decimal 15 2 },
      { name := "order_total", type := .decimal 15 2 },
      { name := "card_processing_fees", type := .decimal 15 2 },
      { name := "order_net", type := .decimal 15 2 },
      { name := "adjusted_order_total", type := .decimal 15 2 },
      { name := "adjusted_card_processing_fees", type := .decimal 15 2 },
      { name := "adjusted_net_order_amount", type := .decimal 15 2 },
      { name := "coupon_code", type := .text },
      { name := "coupon_details", type := .text },
      { name := "has_discount", type := .boolean, default := .dFalse },
      { name := "discount_type", type := .text },
      { name := "shipping_method", type := .text },
      { name := "shipping_country", type := .text },
      { name := "shipping_state", type := .text },
      { name := "shipping_city", type := .text },
      { name := "is_international", type := .boolean, default := .dFalse },
      { name := "is_gift", type := .boolean, default := .dFalse },
      { name := "has_personalization", type := .boolean, default := .dFalse },
      { name := "in_person_location", type := .text },
      { name := "created_date", type := .timestamp, notNull := true, default := .dCurrentTimestamp },
      { name := "updated_date", type := .timestamp, notNull := true, default := .dCurrentTimestamp }] }

/-- `dim_geography` (lines 203 to 236). -/
def dim_geography : Table :=
  { name := "dim_geography"
    columns := [
      { name := "geography_key", type := .bigserial, primaryKey := true },
      { name := "location_hash", type := .varchar 32 },
      { name := "country_name", type := .text, notNull := true },
      { name := "state_name", type := .text },
      { name := "city_name", type := .text },
      { name := "postal_code", type := .text },
      { name := "continent", type := .text },
      { name := "region", type := .text },
      { name := "country_code", type := .varchar 3 },
      { name := "state_code", type := .varchar 10 },
      { name := "sub_region", type := .text },
      { name := "etsy_market", type := .text },
      { name := "shipping_zone", type := .text },
      { name := "currency_code", type := .varchar 3 },
      { name := "timezone", type := .varchar 50 },
      { name := "created_date", type := .timestamp, notNull := true, default := .dCurrentTimestamp },
      { name := "updated_date", type := .timestamp, notNull := true, default := .dCurrentTimestamp }] }

/-- `dim_payment` (lines 240 to 252). -/
def dim_payment : Table :=
  { name := "dim_payment"
    columns := [
      { name := "payment_key", type := .bigserial, primaryKey := true },
      { name := "payment_method", type := .text, notNull := true },
      { name := "payment_type", type := .text },
      { name := "payment_provider", type := .text },
      { name := "created_date", type := .timestamp, notNull := true, default := .dCurrentTimestamp },
      { name := "updated_date", type := .timestamp, notNull := true, default := .dCurrentTimestamp }] }

/-- `dim_bank_account` (lines 256 to 278). -/
def dim_bank_account : Table :=
  { name := "dim_bank_account"
    columns := [
      { name := "bank_account_key", type := .bigserial, primaryKey := true },
      { name := "account_number", type := .text, notNull := true, uniq := true },
      { name := "account_name", type := .text, notNull := true },
      { name := "opening_date", type := .date },
      { name := "cif_number", type := .text },
      { name := "customer_address", type := .text },
      { name := "is_active", type := .boolean, default := .dTrue },
      { name := "currency_code", type := .varchar 3, default := .dStr "VND" },
      { name := "created_date", type := .timestamp, notNull := true, default := .dCurrentTimestamp },
      { name := "updated_date", type := .timestamp, notNull := true, default := .dCurrentTimestamp }] }

/-- `dim_product_catalog` (lines 282 to 307), with its generated
`product_code` column (GENERATED ALWAYS AS the listed columns joined by an
underscore, STORED) and the named UNIQUE constraint on the natural key. -/
def dim_product_catalog : Table :=
  { name := "dim_product_catalog"
    columns := [
      { name := "product_catalog_key", type := .bigserial, primaryKey := true },
      { name := "product_line_id", type := .varchar 50, notNull := true },
      { name := "product_id", type := .varchar 50, notNull := true },
      { name := "variant_id", type := .varchar 50, notNull := true },
      { name := "product_line_name", type := .varchar 200 },
      { name := "product_name", type := .varchar 200 },
      { name := "variant_name", type := .varchar 200 },
      { name := "product_code", type := .varchar 200,
        generatedFrom := some ["product_line_id", "product_id", "variant_id"] },
      { name := "created_date", type := .timestamp, notNull := true, default := .dCurrentTimestamp },
      { name := "updated_date", type := .timestamp, notNull := true, default := .dCurrentTimestamp }]
    constraints := [.uniqueCols "uq_product_catalog_natural_key"
      ["product_line_id", "product_id", "variant_id"]] }

/-- `fact_sales` (lines 318 to 367). -/
def fact_sales : Table :=
  { name := "fact_sales"
    columns := [
      { name := "sales_key", type := .bigserial, primaryKey := true },
      { name := "product_key", type := .bigint, references := some ("dim_product", "product_key") },
      { name := "customer_key", type := .bigint, references := some ("dim_customer", "customer_key") },
      { name := "order_key", type := .bigint, references := some ("dim_order", "order_key") },
      { name := "sale_date_key", type := .integer, references := some ("dim_time", "time_key") },
      { name := "ship_date_key", type := .integer, references := some ("dim_time", "time_key") },
      { name := "paid_date_key", type := .integer, references := some ("dim_time", "time_key") },
      { name := "geography_key", type := .bigint, references := some ("dim_geography", "geography_key") },
      { name := "payment_key", type := .bigint, references := some ("dim_payment", "payment_key") },
      { name := "transaction_id", type := .bigint },
      { name := "order_id", type := .bigint },
      { name := "sku", type := .text },
      { name := "quantity_sold", type := .integer },
      { name := "item_price", type := .decimal 15 2 },
      { name := "item_total", type := .decimal 15 2 },
      { name := "discount_amount", type := .decimal 15 2 },
      { name := "shipping_amount", type := .decimal 15 2 },
      { name := "shipping_discount", type := .decimal 15 2 },
      { name := "order_sales_tax", type := .decimal 15 2 },
      { name := "conversion_date", type := .date },
      { name := "variations", type := .text },
      { name := "size", type := .text },
      { name := "style", type := .text },
      { name := "color", type := .text },
      { name := "material", type := .text },
      { name := "personalization", type := .text },
      { name := "vat_paid_by_buyer", type := .decimal 15 2 },
      { name := "created_timestamp", type := .timestamp, notNull := true, default := .dCurrentTimestamp },
      { name := "updated_timestamp", type := .timestamp, notNull := true, default := .dCurrentTimestamp },
      { name := "data_source", type := .varchar 50, default := .dStr "sold_order_items" },
      { name := "batch_id", type := .varchar 100 }] }

/-- `fact_financial_transactions` (lines 372 to 409). -/
def fact_financial_transactions : Table :=
  { name := "fact_financial_transactions"
    columns := [
      { name := "financial_transaction_key", type := .bigserial, primaryKey := true },
      { name := "transaction_date_key", type := .integer, references := some ("dim_time", "time_key") },
      { name := "customer_key", type := .bigint, references := some ("dim_customer", "customer_key") },
      { name := "order_key", type := .bigint, references := some ("dim_order", "order_key") },
      { name := "product_key", type := .bigint, references := some ("dim_product", "product_key") },
      { name := "extracted_id", type := .text },
      { name := "order_id", type := .bigint },
      { name := "transaction_id", type := .bigint },
      { name := "transaction_type", type := .text },
      { name := "transaction_title", type := .text },
      { name := "revenue_type", type := .text },
      { name := "fee_type", type := .text },
      { name := "id_type", type := .text },
      { name := "info_description", type := .text },
      { name := "amount", type := .decimal 15 2 },
      { name := "fees_and_taxes", type := .decimal 15 2 },
      { name := "net", type := .decimal 15 2 },
      { name := "tax_details", type := .decimal 15 2 },
      { name := "original_info", type := .text },
      { name := "created_timestamp", type := .timestamp, notNull := true, default := .dCurrentTimestamp },
      { name := "updated_timestamp", type := .timestamp, notNull := true, default := .dCurrentTimestamp },
      { name := "data_source", type := .varchar 50, default := .dStr "statement" },
      { name := "batch_id", type := .varchar 100 }] }

/-- `fact_deposits` (lines 414 to 431). -/
def fact_deposits : Table :=
  { name := "fact_deposits"
    columns := [
      { name := "deposit_key", type := .bigserial, primaryKey := true },
      { name := "deposit_date_key", type := .integer, references := some ("dim_time", "time_key") },
      { name := "deposit_amount", type := .decimal 15 2 },
      { name := "deposit_status", type := .text },
      { name := "bank_account_ending_digits", type := .integer },
      { name := "created_timestamp", type := .timestamp, notNull := true, default := .dCurrentTimestamp },
      { name := "updated_timestamp", type := .timestamp, notNull := true, default := .dCurrentTimestamp },
      { name := "data_source", type := .varchar 50, default := .dStr "deposits" },
      { name := "batch_id", type := .varchar 100 }] }

/-- `fact_payments` (lines 436 to 487). -/
def fact_payments : Table :=
  { name := "fact_payments"
    columns := [
      { name := "payment_transaction_key", type := .bigserial, primaryKey := true },
      { name := "customer_key", type := .bigint, references := some ("dim_customer", "customer_key") },
      { name := "order_key", type := .bigint, references := some ("dim_order", "order_key") },
      { name := "payment_date_key", type := .integer, references := some ("dim_time", "time_key") },
      { name := "payment_method_key", type := .bigint, references := some ("dim_payment", "payment_key") },
      { name := "payment_id", type := .bigint },
      { name := "buyer_username", type := .text },
      { name := "buyer_name", type := .text },
      { name := "order_id", type := .bigint },
      { name := "gross_amount", type := .decimal 15 2 },
      { name := "fees", type := .decimal 15 2 },
      { name := "net_amount", type := .decimal 15 2 },
      { name := "posted_gross", type := .decimal 15 2 },
      { name := "posted_fees", type := .decimal 15 2 },
      { name := "posted_net", type := .decimal 15 2 },
      { name := "adjusted_gross", type := .decimal 15 2 },
      { name := "adjusted_fees", type := .decimal 15 2 },
      { name := "adjusted_net", type := .decimal 15 2 },
      { name := "currency", type := .text },
      { name := "listing_amount", type := .decimal 15 2 },
      { name := "listing_currency", type := .text },
      { name := "exchange_rate", type := .decimal 15 8 },
      { name := "vat_amount", type := .decimal 15 2 },
      { name := "gift_card_applied", type := .boolean },
      { name := "status", type := .text },
      { name := "funds_available", type := .timestamp },
      { name := "order_date", type := .timestamp },
      { name := "buyer", type := .text },
      { name := "order_type", type := .text },
      { name := "payment_type", type := .text },
      { name := "refund_amount", type := .decimal 15 2 },
      { name := "created_timestamp", type := .timestamp, notNull := true, default := .dCurrentTimestamp },
      { name := "updated_timestamp", type := .timestamp, notNull := true, default := .dCurrentTimestamp },
      { name := "data_source", type := .varchar 50, default := .dStr "direct_checkout" },
      { name := "batch_id", type := .varchar 100 }] }

/-- `fact_bank_transactions` (lines 492 to 525). -/
def fact_bank_transactions : Table :=
  { name := "fact_bank_transactions"
    columns := [
      { name := "bank_transaction_key", type := .bigserial, primaryKey := true },
      { name := "bank_account_key", type := .bigint, references := some ("dim_bank_account", "bank_account_key") },
      { name := "transaction_date_key", type := .integer, references := some ("dim_time", "time_key") },
      { name := "product_catalog_key", type := .bigint, references := some ("dim_product_catalog", "product_catalog_key") },
      { name := "reference_number", type := .text, notNull := true },
      { name := "account_number", type := .text, notNull := true },
      { name := "transaction_description", type := .text },
      { name := "pl_account_number", type := .varchar 10 },
      { name := "parsed_product_line_id", type := .varchar 50 },
      { name := "parsed_product_id", type := .varchar 50 },
      { name := "parsed_variant_id", type := .varchar 50 },
      { name := "credit_amount", type := .decimal 15 2 },
      { name := "debit_amount", type := .decimal 15 2 },
      { name := "balance_after_transaction", type := .decimal 15 2 },
      { name := "is_business_related", type := .boolean, default := .dTrue },
      { name := "data_source", type := .varchar 50, default := .dStr "bank_statement" },
      { name := "batch_id", type := .varchar 100 }] }

/-- Every table created by the schema script, in script order. -/
def etsyStarSchema : List Table :=
  [dim_time, dim_product, dim_customer, dim_order, dim_geography, dim_payment,
   dim_bank_account, dim_product_catalog,
   fact_sales, fact_financial_transactions, fact_deposits, fact_payments,
   fact_bank_transactions]

/-! ### Derived schema views used by the claims -/

/-- The kinds of constraint a column or table declaration can carry. -/
inductive ConstraintKind where
  | primaryKey
  | notNull
  | uniqueKey
  | defaultClause
  | foreignKey
  | generated
  | tableUnique
  deriving DecidableEq, Repr

/-- The constraints declared on one column. -/
def Column.constraintKinds (c : Column) : List ConstraintKind :=
  (if c.primaryKey then [ConstraintKind.primaryKey] else []) ++
  (if c.notNull then [ConstraintKind.notNull] else []) ++
  (if c.uniq then [ConstraintKind.uniqueKey] else []) ++
  (if c.default ≠ SqlDefault.dNone then [ConstraintKind.defaultClause] else []) ++
  (if c.references.isSome then [ConstraintKind.foreignKey] else []) ++
  (if c.generatedFrom.isSome then [ConstraintKind.generated] else [])

/-- Every constraint declared by one `CREATE TABLE`. -/
def Table.constraintKinds (t : Table) : List ConstraintKind :=
  (t.columns.map Column.constraintKinds).flatten ++
  t.constraints.map (fun _ => ConstraintKind.tableUnique)

/-- Is a constraint a foreign-key reference or a DEFAULT clause? -/
def kindIsFkOrDefault : ConstraintKind → Bool
  | .foreignKey => true
  | .defaultClause => true
  | _ => false

/-- Does every declared constraint of every table reduce to a foreign key or
a DEFAULT clause? -/
def schemaOnlyFkAndDefault (ts : List Table) : Bool :=
  ts.all (fun t => t.constraintKinds.all kindIsFkOrDefault)

/-- All (table, column) pairs declared UNIQUE at column level. -/
def uniqueColumnPairs (ts : List Table) : List (String × String) :=
  (ts.map (fun t => (t.columns.filter (fun c => c.uniq)).map (fun c => (t.name, c.name)))).flatten

/-- All (table, column) pairs declared as generated columns. -/
def generatedColumnPairs (ts : List Table) : List (String × String) :=
  (ts.map (fun t =>
    (t.columns.filter (fun c => c.generatedFrom.isSome)).map (fun c => (t.name, c.name)))).flatten

/-- All table-level constraints, tagged with their table. -/
def tableConstraintList (ts : List Table) : List (String × TableConstraint) :=
  (ts.map (fun t => t.constraints.map (fun tc => (t.name, tc)))).flatten

/-- Does `s` start with `pre`?  (On the character lists, so that the kernel
can evaluate it.) -/
def strStartsWith (pre s : String) : Bool :=
  pre.data.isPrefixOf s.data

/-- The names of the dimension tables the script creates. -/
def dimensionTableNames (ts : List Table) : List String :=
  (ts.map Table.name).filter (fun n => strStartsWith "dim_" n)

/-- The names of the fact tables the script creates. -/
def factTableNames (ts : List Table) : List String :=
  (ts.map Table.name).filter (fun n => strStartsWith "fact_" n)

/-- SQL values, as far as defaults need them. -/
inductive SqlValue where
  | vNull
  | vBool (b : Bool)
  | vInt (n : Int)
  | vStr (s : String)
  | vCurrentTimestamp
  | vDec (lit : String)
  deriving DecidableEq, Repr

/-- The value a DEFAULT clause supplies (no clause means SQL NULL). -/
def SqlDefault.value : SqlDefault → SqlValue
  | .dNone => .vNull
  | .dTrue => .vBool true
  | .dFalse => .vBool false
  | .dCurrentTimestamp => .vCurrentTimestamp
  | .dStr s => .vStr s
  | .dInt n => .vInt n
  | .dDec l => .vDec l

/-- The row an INSERT produces: every column takes the provided value when
one is given, and its DEFAULT otherwise. -/
def insertWithDefaults (t : Table) (provided : List (String × SqlValue)) :
    List (String × SqlValue) :=
  t.columns.map (fun c => (c.name, (provided.lookup c.name).getD c.default.value))

/-! ### Lemmas about the association-list object model -/

theorem lookup_eq_none_of_not_mem {k : String} {o : JsObj} (h : k ∉ o.map Prod.fst) :
    o.lookup k = none := by
  induction o with
  | nil => rfl
  | cons kv rest ih =>
    simp only [List.map_cons, List.mem_cons, not_or] at h
    obtain ⟨h1, h2⟩ := h
    obtain ⟨a, b⟩ := kv
    simp only [List.lookup]
    rw [show (k == a) = false from beq_false_of_ne h1]
    exact ih h2

theorem deleteKey_of_not_mem {k : String} {o : JsObj} (h : k ∉ o.map Prod.fst) :
    deleteKey o k = o := by
  induction o with
  | nil => rfl
  | cons kv rest ih =>
    simp only [List.map_cons, List.mem_cons, not_or] at h
    obtain ⟨h1, h2⟩ := h
    obtain ⟨a, b⟩ := kv
    unfold deleteKey at ih ⊢
    rw [List.filter_cons]
    simp only [show (a == k) = false from beq_false_of_ne (Ne.symm h1), Bool.not_false,
      if_pos trivial, ih h2]

theorem jsIndex_cons_self (a : String) (b : JsValue) (o : JsObj) :
    jsIndex ((a, b) :: o) a = b := by
  simp [jsIndex, List.lookup]

theorem jsIndex_cons_ne {a k : String} (b : JsValue) (o : JsObj) (h : k ≠ a) :
    jsIndex ((a, b) :: o) k = jsIndex o k := by
  simp only [jsIndex, List.lookup]
  rw [show (k == a) = false from beq_false_of_ne h]

theorem deleteKey_cons_ne {a k : String} (b : JsValue) (o : JsObj) (h : k ≠ a) :
    deleteKey ((a, b) :: o) k = (a, b) :: deleteKey o k := by
  unfold deleteKey
  rw [List.filter_cons]
  simp [show (a == k) = false from beq_false_of_ne (Ne.symm h)]

theorem dropStep_cons_ne {a k : String} (b : JsValue) (o : JsObj) (h : k ≠ a) :
    dropStep ((a, b) :: o) k = (a, b) :: dropStep o k := by
  unfold dropStep
  rw [jsIndex_cons_ne b o h, deleteKey_cons_ne b o h]
  split <;> rfl

theorem foldl_dropStep_cons {a : String} {b : JsValue} :
    ∀ (ks : List String) (acc : JsObj), a ∉ ks →
      ks.foldl dropStep ((a, b) :: acc) = (a, b) :: ks.foldl dropStep acc := by
  intro ks
  induction ks with
  | nil => intro acc _; rfl
  | cons k ks ih =>
    intro acc h
    simp only [List.mem_cons, not_or] at h
    obtain ⟨h1, h2⟩ := h
    rw [List.foldl_cons, List.foldl_cons, dropStep_cons_ne b acc (Ne.symm h1)]
    exact ih _ h2

theorem params_eq_filter : ∀ {p : JsObj}, (p.map Prod.fst).Nodup →
    params p = p.filter (fun kv => !(kv.2.isDroppable)) := by
  intro p
  induction p with
  | nil => intro _; rfl
  | cons kv rest ih =>
    intro h
    obtain ⟨a, b⟩ := kv
    simp only [List.map_cons, List.nodup_cons] at h
    obtain ⟨ha, hrest⟩ := h
    show (a :: rest.map Prod.fst).foldl dropStep ((a, b) :: rest) = _
    rw [List.foldl_cons]
    by_cases hd : b.isDroppable = true
    · have hstep : dropStep ((a, b) :: rest) a = rest := by
        unfold dropStep
        rw [jsIndex_cons_self, if_pos hd]
        unfold deleteKey
        rw [List.filter_cons]
        simp only [beq_self_eq_true, Bool.not_true, Bool.false_eq_true, if_false]
        exact deleteKey_of_not_mem ha
      rw [hstep, List.filter_cons]
      simp only [hd, Bool.not_true, Bool.false_eq_true, if_false]
      exact ih hrest
    · have hstep : dropStep ((a, b) :: rest) a = (a, b) :: rest := by
        unfold dropStep
        rw [jsIndex_cons_self, if_neg hd]
      rw [hstep, foldl_dropStep_cons _ _ ha, List.filter_cons]
      simp only [Bool.not_eq_true] at hd
      simp only [hd, Bool.not_false, if_pos trivial]
      exact congrArg (List.cons (a, b)) (ih hrest)

/-! ### Claim theorems -/

/-- C1: the axios response interceptor rejects every error with the original
error object; when the HTTP status is 401 it signs out of Supabase and sets
`window.location.href` to `/login`, while any other outcome produces no side
effect; successful responses pass through unchanged. -/
theorem C1_response_interceptor (e : AxiosError) (r : AxiosResponse) :
    (onResponseRejected e).2 = e ∧
    (e.response.map AxiosErrorResponse.status = some 401 →
      (onResponseRejected e).1 =
        { signedOut := true, messageShown := true, redirectTarget := some "/login" }) ∧
    (e.response.map AxiosErrorResponse.status ≠ some 401 →
      (onResponseRejected e).1 = noEffects) ∧
    onResponseFulfilled r = r := by
  unfold onResponseRejected
  refine ⟨?_, fun h => ?_, fun h => ?_, rfl⟩
  · split <;> rfl
  · rw [if_pos h]
  · rw [if_neg h]

/-- Witness for C1 at status 401, status 500, and a network error. -/
theorem C1_response_interceptor_witness :
    (onResponseRejected { response := some { status := 401 } }).1 =
      { signedOut := true, messageShown := true, redirectTarget := some "/login" } ∧
    (onResponseRejected { response := some { status := 500 } }).1 = noEffects ∧
    (onResponseRejected { response := none }).1 = noEffects ∧
    (onResponseRejected { response := some { status := 500 } }).2 =
      { response := some { status := 500 } } :=
  ⟨(C1_response_interceptor { response := some { status := 401 } } ⟨200, ""⟩).2.1 rfl,
   (C1_response_interceptor { response := some { status := 500 } } ⟨200, ""⟩).2.2.1 (by decide),
   (C1_response_interceptor { response := none } ⟨200, ""⟩).2.2.1 (by decide),
   (C1_response_interceptor { response := some { status := 500 } } ⟨200, ""⟩).1⟩

/-- C5: modelled from the spec, each order receives a share of the refund/fee
total proportional to its fraction of the product revenue, and the reported
sales percentages sum to 100 over the orders of the product. -/
theorem C5_pro_rata_allocation (total : Rat) (orderRevenues : List Rat) (r : Rat)
    (hS : orderRevenues.sum ≠ 0) (ht : total ≠ 0) :
    allocatedShare total orderRevenues.sum r / total = r / orderRevenues.sum ∧
    (marginBreakdownPercents orderRevenues).sum = 100 := by
  constructor
  · unfold allocatedShare
    exact mul_div_cancel_left₀ _ ht
  · unfold marginBreakdownPercents salesPercent
    have hsum : ∀ (l : List Rat) (S : Rat),
        (l.map (fun x => x / S * 100)).sum = l.sum / S * 100 := by
      intro l S
      induction l with
      | nil => simp
      | cons a t iht =>
        rw [List.map_cons, List.sum_cons, List.sum_cons, iht]
        ring
    rw [hsum, div_self hS, one_mul]

/-- Witness for C5 on two orders with revenues 1 and 3 and a total of 8. -/
theorem C5_pro_rata_allocation_witness :
    allocatedShare 8 ([1, 3] : List Rat).sum 1 / 8 = 1 / ([1, 3] : List Rat).sum ∧
    (marginBreakdownPercents [1, 3]).sum = 100 :=
  C5_pro_rata_allocation 8 [1, 3] 1 (by norm_num) (by norm_num)

/-- C6: the import-row request goes out exactly when the three required
fields are non-empty, and on a validation failure the handler returns after
the validation error without calling the API and with the modal state
unchanged. -/
theorem C6_import_row_guard (s : ModalState) (apiOk : Bool) (h : s.importing = false) :
    ((handleImportRow s apiOk).apiCalled = true ↔
      (s.formValues.product_line_id ≠ "" ∧ s.formValues.product_id ≠ "" ∧
        s.formValues.variant_id ≠ "")) ∧
    ((s.formValues.product_line_id = "" ∨ s.formValues.product_id = "" ∨
        s.formValues.variant_id = "") →
      (handleImportRow s apiOk).apiCalled = false ∧
      (handleImportRow s apiOk).state = s) := by
  obtain ⟨vis, imp, v⟩ := s
  simp only at h
  subst h
  by_cases h1 : v.product_line_id = "" <;> by_cases h2 : v.product_id = "" <;>
    by_cases h3 : v.variant_id = "" <;>
      simp [handleImportRow, validateFields, requiredFieldErrors, h1, h2, h3]

/-- Witness for C6: a filled form sends the request; a form missing its
product_id does not and leaves the state alone. -/
theorem C6_import_row_guard_witness :
    (handleImportRow
      { importModalVisible := true, importing := false,
        formValues := ⟨"DEF", "", "03", "", "", ""⟩ } true).apiCalled = false ∧
    (handleImportRow
      { importModalVisible := true, importing := false,
        formValues := ⟨"DEF", "", "03", "", "", ""⟩ } true).state =
      { importModalVisible := true, importing := false,
        formValues := ⟨"DEF", "", "03", "", "", ""⟩ } ∧
    (handleImportRow
      { importModalVisible := true, importing := false,
        formValues := ⟨"DEF", "MG01107417", "03", "", "", ""⟩ } true).apiCalled = true := by
  refine ⟨?_, ?_, ?_⟩
  · exact (C6_import_row_guard _ true rfl).2 (Or.inr (Or.inl rfl)) |>.1
  · exact (C6_import_row_guard _ true rfl).2 (Or.inr (Or.inl rfl)) |>.2
  · exact (C6_import_row_guard _ true rfl).1.mpr (by decide)

/-- C7: `params` returns the object holding exactly the keys of `p` whose
values are neither null, undefined nor the empty string, each with its
original value, and the argument object is not mutated by the call. -/
theorem C7_params_spec {p : JsObj} (h : (p.map Prod.fst).Nodup) :
    (paramsCall p).1 = p.filter (fun kv => !(kv.2.isDroppable)) ∧
    (∀ kv : String × JsValue, kv ∈ (paramsCall p).1 ↔
      (kv ∈ p ∧ kv.2.isDroppable = false)) ∧
    (paramsCall p).2 = p := by
  refine ⟨params_eq_filter h, fun kv => ?_, rfl⟩
  rw [show (paramsCall p).1 = params p from rfl, params_eq_filter h]
  simp [List.mem_filter]

/-- Witness for C7 on an object mixing kept and dropped keys. -/
theorem C7_params_spec_witness :
    (paramsCall [(("a" : String), JsValue.jsStr "x"), ("b", JsValue.jsNull),
        ("c", JsValue.jsStr ""), ("d", JsValue.jsUndefined), ("e", JsValue.jsNum 3)]).1 =
      [("a", JsValue.jsStr "x"), ("e", JsValue.jsNum 3)] ∧
    (paramsCall [(("a" : String), JsValue.jsStr "x"), ("b", JsValue.jsNull),
        ("c", JsValue.jsStr ""), ("d", JsValue.jsUndefined), ("e", JsValue.jsNum 3)]).2 =
      [("a", JsValue.jsStr "x"), ("b", JsValue.jsNull),
        ("c", JsValue.jsStr ""), ("d", JsValue.jsUndefined), ("e", JsValue.jsNum 3)] := by
  have h := C7_params_spec
    (p := [(("a" : String), JsValue.jsStr "x"), ("b", JsValue.jsNull),
      ("c", JsValue.jsStr ""), ("d", JsValue.jsUndefined), ("e", JsValue.jsNum 3)])
    (by decide)
  exact ⟨h.1.trans (by decide), h.2.2⟩

/-- C8: `toCSV` yields the empty string on a nullish or empty array, and
otherwise a header of the column names joined by commas followed by one line
per row joined by CRLF; each field is the stringified cell (empty for null
or undefined), quoted with doubled inner quotes exactly when it holds a
comma or a double quote. -/
theorem C8_toCSV_spec :
    (∀ cols, toCSV none cols = "" ∧ toCSV (some []) cols = "") ∧
    (∀ (r0 : JsObj) (rest : List JsObj) (cols : List String),
      toCSV (some (r0 :: rest)) (some cols) =
        String.intercalate "\r\n"
          (String.intercalate "," cols :: (r0 :: rest).map (csvRow cols))) ∧
    (∀ cols r, csvRow cols r =
      String.intercalate "," (cols.map (fun c => csvEscape (cellString (jsIndex r c))))) ∧
    (cellString JsValue.jsNull = "" ∧ cellString JsValue.jsUndefined = "") ∧
    (∀ v : JsValue, v.looseEqNull = false → cellString v = v.jsToString) ∧
    (∀ s : String, (includesChar s ',' || includesChar s '"') = true →
      csvEscape s = "\"" ++ escapeQuotes s ++ "\"") ∧
    (∀ s : String, (includesChar s ',' || includesChar s '"') = false →
      csvEscape s = s) := by
  refine ⟨fun cols => ⟨rfl, rfl⟩, fun r0 rest cols => rfl, fun cols r => rfl,
    ⟨rfl, rfl⟩, fun v hv => ?_, fun s hs => ?_, fun s hs => ?_⟩
  · unfold cellString
    rw [hv]
    rfl
  · unfold csvEscape
    rw [if_pos hs]
  · unfold csvEscape
    rw [hs]
    rfl

/-- Witness for C8: concrete exports with and without quoting. -/
theorem C8_toCSV_spec_witness :
    toCSV none none = "" ∧
    csvEscape "a,b" = "\"a,b\"" ∧
    csvEscape "say \"hi\"" = "\"say \"\"hi\"\"\"" ∧
    csvEscape "plain" = "plain" ∧
    cellString JsValue.jsNull = "" := by
  refine ⟨(C8_toCSV_spec.1 none).1, ?_, ?_, ?_, (C8_toCSV_spec.2.2.2.1).1⟩
  · exact (C8_toCSV_spec.2.2.2.2.2.1 "a,b" (by decide)).trans (by decide)
  · exact (C8_toCSV_spec.2.2.2.2.2.1 "say \"hi\"" (by decide)).trans (by decide)
  · exact C8_toCSV_spec.2.2.2.2.2.2 "plain" (by decide)

/-- C9: the Margin % cell, its sort comparator, and the detail-view total
margin only divide by sales when sales is positive (cell and comparator) or
non-zero (total), and yield 0 otherwise. -/
theorem C9_margin_guards (sales profit aS aP bS bP : Rat) (variants : List VariantRow) :
    (¬ 0 < sales → marginCellValue sales profit = 0) ∧
    (0 < sales → marginCellValue sales profit = profit / sales * 100) ∧
    marginSorter aS aP bS bP = marginCellValue aS aP - marginCellValue bS bP ∧
    ((totals variants).sales = 0 → totalMargin variants = 0) := by
  refine ⟨fun h => if_neg h, fun h => if_pos h, rfl, fun h => ?_⟩
  unfold totalMargin
  exact if_neg (fun hn => hn h)

/-- Witness for C9 at zero sales and an empty variant list. -/
theorem C9_margin_guards_witness :
    marginCellValue 0 5 = 0 ∧ totalMargin [] = 0 := by
  have h := C9_margin_guards 0 5 0 0 0 0 []
  exact ⟨h.1 (by norm_num), h.2.2.2 rfl⟩

/-- C2 counterexample: the schema declares constraints beyond foreign keys
and DEFAULT clauses; in particular `dim_order.order_id` is UNIQUE, and
`dim_product_catalog` declares a generated column and a table-level UNIQUE
constraint. -/
theorem C2_counterexample :
    schemaOnlyFkAndDefault etsyStarSchema = false ∧
    ("dim_order", "order_id") ∈ uniqueColumnPairs etsyStarSchema ∧
    ("dim_product_catalog", "product_code") ∈ generatedColumnPairs etsyStarSchema := by
  refine ⟨rfl, ?_, ?_⟩ <;> decide

/-- C2 amended: beyond foreign keys and DEFAULT clauses the schema also
declares primary keys and NOT NULL constraints, column-level UNIQUE on
exactly `dim_order.order_id` and `dim_bank_account.account_number`, exactly
one generated column (`dim_product_catalog.product_code`), and exactly one
table-level constraint (the UNIQUE natural key of `dim_product_catalog`). -/
theorem C2_schema_constraints :
    uniqueColumnPairs etsyStarSchema =
      [("dim_order", "order_id"), ("dim_bank_account", "account_number")] ∧
    generatedColumnPairs etsyStarSchema = [("dim_product_catalog", "product_code")] ∧
    tableConstraintList etsyStarSchema =
      [("dim_product_catalog", TableConstraint.uniqueCols "uq_product_catalog_natural_key"
        ["product_line_id", "product_id", "variant_id"])] ∧
    etsyStarSchema.all (fun t => t.constraintKinds.all (fun k =>
      kindIsFkOrDefault k || k == ConstraintKind.primaryKey || k == ConstraintKind.notNull ||
      k == ConstraintKind.uniqueKey || k == ConstraintKind.generated ||
      k == ConstraintKind.tableUnique)) = true :=
  ⟨rfl, rfl, rfl, rfl⟩

/-- C3: `dim_product` and `dim_customer` both declare `effective_date`
(NOT NULL DEFAULT CURRENT_TIMESTAMP), `expiry_date` (NOT NULL DEFAULT the
9999-12-31 sentinel) and `is_current` (NOT NULL DEFAULT TRUE), so an insert
that does not set `is_current` produces a row with `is_current = TRUE`. -/
theorem C3_scd2_dimensions :
    (∀ t ∈ [dim_product, dim_customer],
      (t.columns.find? (fun c => c.name == "effective_date")).map
          (fun c => (c.notNull, c.default)) = some (true, SqlDefault.dCurrentTimestamp) ∧
      (t.columns.find? (fun c => c.name == "expiry_date")).map
          (fun c => (c.notNull, c.default)) =
        some (true, SqlDefault.dStr "9999-12-31 23:59:59") ∧
      (t.columns.find? (fun c => c.name == "is_current")).map
          (fun c => (c.notNull, c.default)) = some (true, SqlDefault.dTrue)) ∧
    (∀ provided : List (String × SqlValue), provided.lookup "is_current" = none →
      (insertWithDefaults dim_product provided).lookup "is_current" =
        some (SqlValue.vBool true) ∧
      (insertWithDefaults dim_customer provided).lookup "is_current" =
        some (SqlValue.vBool true)) := by
  constructor
  · decide
  · intro provided h
    constructor
    · have e : (insertWithDefaults dim_product provided).lookup "is_current" =
          some ((provided.lookup "is_current").getD (SqlValue.vBool true)) := rfl
      rw [e, h]
      rfl
    · have e : (insertWithDefaults dim_customer provided).lookup "is_current" =
          some ((provided.lookup "is_current").getD (SqlValue.vBool true)) := rfl
      rw [e, h]
      rfl

/-- Witness for C3 at `dim_product` and an insert that provides nothing. -/
theorem C3_scd2_dimensions_witness :
    (dim_product.columns.find? (fun c => c.name == "is_current")).map
        (fun c => (c.notNull, c.default)) = some (true, SqlDefault.dTrue) ∧
    (insertWithDefaults dim_product []).lookup "is_current" =
      some (SqlValue.vBool true) :=
  ⟨(C3_scd2_dimensions.1 dim_product (List.mem_cons_self _ _)).2.2,
   (C3_scd2_dimensions.2 [] rfl).1⟩

/-- C4 counterexample: the script creates a dimension table that is not one
of the seven the claim lists, namely `dim_product_catalog`. -/
theorem C4_counterexample :
    "dim_product_catalog" ∈ dimensionTableNames etsyStarSchema ∧
    dimensionTableNames etsyStarSchema ≠
      ["dim_time", "dim_product", "dim_customer", "dim_order", "dim_geography",
       "dim_payment", "dim_bank_account"] := by
  constructor <;> decide

/-- C4 amended: the script creates exactly eight dimension tables (the seven
listed plus `dim_product_catalog`) and exactly the five listed fact tables,
and no table beyond those thirteen. -/
theorem C4_schema_tables :
    dimensionTableNames etsyStarSchema =
      ["dim_time", "dim_product", "dim_customer", "dim_order", "dim_geography",
       "dim_payment", "dim_bank_account", "dim_product_catalog"] ∧
    factTableNames etsyStarSchema =
      ["fact_sales", "fact_financial_transactions", "fact_deposits", "fact_payments",
       "fact_bank_transactions"] ∧
    etsyStarSchema.map Table.name =
      ["dim_time", "dim_product", "dim_customer", "dim_order", "dim_geography",
       "dim_payment", "dim_bank_account", "dim_product_catalog",
       "fact_sales", "fact_financial_transactions", "fact_deposits", "fact_payments",
       "fact_bank_transactions"] :=
  ⟨rfl, rfl, rfl⟩

end Etsy
